import Mathlib

set_option linter.unusedVariables false
set_option linter.unnecessarySeqFocus false

/-!
Shallow embedding of the MPack common layer (src/src/mpack/mpack-common.h):
the portable big-endian byte codec, the tag model, and the nesting tracker
interface. Byte windows are lists of byte values; machine integers are
naturals reduced mod 2^w at the width boundaries; floats and doubles appear
only as their IEEE-754 bit patterns, which is the only way this layer stores
and compares them.
-/

/-- Embeds the C enum mpack_error_t (mpack-common.h lines 106-115). -/
inductive mpack_error_t where
  | mpack_ok
  | mpack_error_io
  | mpack_error_invalid
  | mpack_error_type
  | mpack_error_too_big
  | mpack_error_memory
  | mpack_error_bug
  | mpack_error_data
deriving DecidableEq, Repr

/-- Embeds the C enum mpack_type_t (mpack-common.h lines 126-138). -/
inductive mpack_type_t where
  | mpack_type_nil
  | mpack_type_bool
  | mpack_type_float
  | mpack_type_double
  | mpack_type_int
  | mpack_type_uint
  | mpack_type_str
  | mpack_type_bin
  | mpack_type_ext
  | mpack_type_array
  | mpack_type_map
deriving DecidableEq, Repr

/-- The numeric value of each mpack_type_t enumerator: the C enum assigns
mpack_type_nil = 1 and the remaining enumerators follow in order. -/
def mpack_type_value : mpack_type_t → Int
  | .mpack_type_nil => 1
  | .mpack_type_bool => 2
  | .mpack_type_float => 3
  | .mpack_type_double => 4
  | .mpack_type_int => 5
  | .mpack_type_uint => 6
  | .mpack_type_str => 7
  | .mpack_type_bin => 8
  | .mpack_type_ext => 9
  | .mpack_type_array => 10
  | .mpack_type_map => 11

/-- Embeds mpack_load_native_u8 (line 351): returns (uint8_t)p[0]. The
cast of a char to uint8_t is reduction mod 256. -/
def mpack_load_native_u8 (p : List Nat) : Nat :=
  p.getD 0 0 % 256

/-- Embeds mpack_load_native_u16 (lines 355-358): big-endian combination
of the first two bytes of the window. -/
def mpack_load_native_u16 (p : List Nat) : Nat :=
  ((p.getD 0 0 % 256) <<< 8) ||| (p.getD 1 0 % 256)

/-- Embeds mpack_load_native_u32, portable branch (lines 366-369):
big-endian combination of the first four bytes of the window. The bswap
branch is specified to produce the identical result. -/
def mpack_load_native_u32 (p : List Nat) : Nat :=
  ((p.getD 0 0 % 256) <<< 24) |||
  ((p.getD 1 0 % 256) <<< 16) |||
  ((p.getD 2 0 % 256) <<< 8) |||
  (p.getD 3 0 % 256)

/-- Embeds mpack_load_native_u64, portable branch (lines 379-386):
big-endian combination of the first eight bytes of the window. -/
def mpack_load_native_u64 (p : List Nat) : Nat :=
  ((p.getD 0 0 % 256) <<< 56) |||
  ((p.getD 1 0 % 256) <<< 48) |||
  ((p.getD 2 0 % 256) <<< 40) |||
  ((p.getD 3 0 % 256) <<< 32) |||
  ((p.getD 4 0 % 256) <<< 24) |||
  ((p.getD 5 0 % 256) <<< 16) |||
  ((p.getD 6 0 % 256) <<< 8) |||
  (p.getD 7 0 % 256)

/-- Embeds mpack_store_native_u8 (lines 390-393): writes the single byte
val. The uint8_t parameter is modelled by reduction mod 2^8 at entry. -/
def mpack_store_native_u8 (val : Nat) : List Nat :=
  [val % 2 ^ 8]

/-- Embeds mpack_store_native_u16 (lines 395-399): writes the bytes
(val greater-shifted by 8) AND 0xFF then val AND 0xFF. The uint16_t parameter is
modelled by reduction mod 2^16 at entry. -/
def mpack_store_native_u16 (val : Nat) : List Nat :=
  [((val % 2 ^ 16) >>> 8) &&& 0xFF,
   (val % 2 ^ 16) &&& 0xFF]

/-- Embeds mpack_store_native_u32, portable branch (lines 406-410): four
big-endian bytes. The uint32_t parameter is modelled by reduction mod 2^32
at entry. -/
def mpack_store_native_u32 (val : Nat) : List Nat :=
  [((val % 2 ^ 32) >>> 24) &&& 0xFF,
   ((val % 2 ^ 32) >>> 16) &&& 0xFF,
   ((val % 2 ^ 32) >>> 8) &&& 0xFF,
   (val % 2 ^ 32) &&& 0xFF]

/-- Embeds mpack_store_native_u64, portable branch (lines 419-427): eight
big-endian bytes. The uint64_t parameter is modelled by reduction mod 2^64
at entry. -/
def mpack_store_native_u64 (val : Nat) : List Nat :=
  [((val % 2 ^ 64) >>> 56) &&& 0xFF,
   ((val % 2 ^ 64) >>> 48) &&& 0xFF,
   ((val % 2 ^ 64) >>> 40) &&& 0xFF,
   ((val % 2 ^ 64) >>> 32) &&& 0xFF,
   ((val % 2 ^ 64) >>> 24) &&& 0xFF,
   ((val % 2 ^ 64) >>> 16) &&& 0xFF,
   ((val % 2 ^ 64) >>> 8) &&& 0xFF,
   (val % 2 ^ 64) &&& 0xFF]

/-- Embeds mpack_store_native_float (lines 439-447): the C function
reinterprets the float argument as its uint32 bit pattern through a union
and delegates to mpack_store_native_u32; the float is modelled by that bit
pattern. -/
def mpack_store_native_float (bits : Nat) : List Nat :=
  mpack_store_native_u32 bits

/-- Embeds mpack_store_native_double (lines 449-457): the C function
reinterprets the double argument as its uint64 bit pattern through a union
and delegates to mpack_store_native_u64. -/
def mpack_store_native_double (bits : Nat) : List Nat :=
  mpack_store_native_u64 bits

/-- Embeds the value union of mpack_tag_t (lines 160-172), one field per
union member. The memset zero state used by every constructor is
mpack_tag_value_zero. The float member f and the double member d are
modelled by their IEEE-754 bit patterns, which is the only representation
in which this layer stores and compares them. -/
structure mpack_tag_value_t where
  b : Bool
  f : Nat
  d : Nat
  i : Int
  u : Nat
  l : Nat
  n : Nat
deriving DecidableEq, Repr

/-- The all-zero union value produced by memset(&ret, 0, sizeof(ret)). -/
def mpack_tag_value_zero : mpack_tag_value_t :=
  { b := false, f := 0, d := 0, i := 0, u := 0, l := 0, n := 0 }

/-- Embeds mpack_tag_t (lines 154-173): type, exttype (int8_t) and the
value union. -/
structure mpack_tag_t where
  type : mpack_type_t
  exttype : Int
  v : mpack_tag_value_t
deriving DecidableEq, Repr

/-- Embeds mpack_tag_nil (lines 176-181): memset to zero, set type. -/
def mpack_tag_nil : mpack_tag_t :=
  { type := .mpack_type_nil, exttype := 0, v := mpack_tag_value_zero }

/-- Embeds mpack_tag_bool (lines 184-190). -/
def mpack_tag_bool (value : Bool) : mpack_tag_t :=
  { type := .mpack_type_bool, exttype := 0,
    v := { mpack_tag_value_zero with b := value } }

/-- Embeds mpack_tag_int (lines 211-217); the int64_t argument is the
stored value. -/
def mpack_tag_int (value : Int) : mpack_tag_t :=
  { type := .mpack_type_int, exttype := 0,
    v := { mpack_tag_value_zero with i := value } }

/-- Embeds mpack_tag_uint (lines 220-226); the uint64_t argument is the
stored value. -/
def mpack_tag_uint (value : Nat) : mpack_tag_t :=
  { type := .mpack_type_uint, exttype := 0,
    v := { mpack_tag_value_zero with u := value } }

/-- Embeds mpack_tag_float (lines 229-235); the float argument is modelled
by its 32-bit IEEE-754 bit pattern. -/
def mpack_tag_float (bits : Nat) : mpack_tag_t :=
  { type := .mpack_type_float, exttype := 0,
    v := { mpack_tag_value_zero with f := bits % 2 ^ 32 } }

/-- Embeds mpack_tag_double (lines 238-244); the double argument is
modelled by its 64-bit IEEE-754 bit pattern. -/
def mpack_tag_double (bits : Nat) : mpack_tag_t :=
  { type := .mpack_type_double, exttype := 0,
    v := { mpack_tag_value_zero with d := bits % 2 ^ 64 } }

/-- Embeds mpack_tag_array (lines 247-253): the int32_t count is assigned
to the uint32_t field v.n; the C conversion reduces it mod 2^32. -/
def mpack_tag_array (count : Int) : mpack_tag_t :=
  { type := .mpack_type_array, exttype := 0,
    v := { mpack_tag_value_zero with n := (count % 2 ^ 32).toNat } }

/-- Embeds mpack_tag_map (lines 256-262): the int32_t count is assigned to
the uint32_t field v.n; the C conversion reduces it mod 2^32. -/
def mpack_tag_map (count : Int) : mpack_tag_t :=
  { type := .mpack_type_map, exttype := 0,
    v := { mpack_tag_value_zero with n := (count % 2 ^ 32).toNat } }

/-- Embeds mpack_tag_str (lines 265-271): the int32_t length is assigned
to the uint32_t field v.l; the C conversion reduces it mod 2^32. -/
def mpack_tag_str (length : Int) : mpack_tag_t :=
  { type := .mpack_type_str, exttype := 0,
    v := { mpack_tag_value_zero with l := (length % 2 ^ 32).toNat } }

/-- Embeds mpack_tag_bin (lines 274-280): the int32_t length is assigned
to the uint32_t field v.l; the C conversion reduces it mod 2^32. -/
def mpack_tag_bin (length : Int) : mpack_tag_t :=
  { type := .mpack_type_bin, exttype := 0,
    v := { mpack_tag_value_zero with l := (length % 2 ^ 32).toNat } }

/-- Embeds mpack_tag_ext (lines 283-290): sets exttype (int8_t) and the
int32_t length, the latter assigned to the uint32_t field v.l mod 2^32. -/
def mpack_tag_ext (exttype : Int) (length : Int) : mpack_tag_t :=
  { type := .mpack_type_ext, exttype := exttype,
    v := { mpack_tag_value_zero with l := (length % 2 ^ 32).toNat } }

/-- Three-way comparison on integers returning -1, 0 or 1. -/
def mpack_int_cmp (a b : Int) : Int :=
  if a < b then -1 else if a = b then 0 else 1

/-- Three-way comparison on naturals (counts and bit patterns) returning
-1, 0 or 1. -/
def mpack_nat_cmp (a b : Nat) : Int :=
  if a < b then -1 else if a = b then 0 else 1

/-- Modelled from the spec: the Int/UInt folding used by the tag ordering.
A tag of kind Int whose value is non-negative compares as the UInt tag of
the same numeric value (spec section 3: Int and UInt are folded together by
numeric value when comparable). -/
def mpack_tag_normalize (t : mpack_tag_t) : mpack_tag_t :=
  if t.type = .mpack_type_int ∧ 0 ≤ t.v.i then
    { t with type := .mpack_type_uint, v := { t.v with u := t.v.i.toNat } }
  else t

/-- Modelled from the spec: payload comparison of two tags of the same
kind. Nil tags are equal; bool compares false before true; float and
double compare by raw bit pattern (spec sections 3 and 9: a raw
bit-pattern compare, not a numeric one); int and uint compare numerically;
str, bin, array and map compare by their length or count; for ext the
exttype is part of the value and must match exactly, compared before the
length. -/
def mpack_tag_cmp_same (l r : mpack_tag_t) : Int :=
  match l.type with
  | .mpack_type_nil => 0
  | .mpack_type_bool =>
      mpack_int_cmp (if l.v.b then 1 else 0) (if r.v.b then 1 else 0)
  | .mpack_type_float => mpack_nat_cmp l.v.f r.v.f
  | .mpack_type_double => mpack_nat_cmp l.v.d r.v.d
  | .mpack_type_int => mpack_int_cmp l.v.i r.v.i
  | .mpack_type_uint => mpack_nat_cmp l.v.u r.v.u
  | .mpack_type_str => mpack_nat_cmp l.v.l r.v.l
  | .mpack_type_bin => mpack_nat_cmp l.v.l r.v.l
  | .mpack_type_ext =>
      if l.exttype = r.exttype then mpack_nat_cmp l.v.l r.v.l
      else mpack_int_cmp l.exttype r.exttype
  | .mpack_type_array => mpack_nat_cmp l.v.n r.v.n
  | .mpack_type_map => mpack_nat_cmp l.v.n r.v.n

/-- Modelled from the spec: mpack_tag_cmp is declared at mpack-common.h
line 306 but its body is not under src. Spec section 4.2: compare returns
-1, 0 or 1 and implements the ordering of section 3, a deterministic
composite ordering, first by a fixed priority over kinds (here the numeric
values of the C enum), with Int and UInt folded together by numeric value
when comparable, then by payload. -/
def mpack_tag_cmp (left right : mpack_tag_t) : Int :=
  if (mpack_tag_normalize left).type = (mpack_tag_normalize right).type then
    mpack_tag_cmp_same (mpack_tag_normalize left) (mpack_tag_normalize right)
  else
    mpack_int_cmp (mpack_type_value (mpack_tag_normalize left).type)
      (mpack_type_value (mpack_tag_normalize right).type)

/-- Embeds mpack_tag_equal (lines 324-326): returns
mpack_tag_cmp(left, right) == 0. -/
def mpack_tag_equal (left right : mpack_tag_t) : Bool :=
  mpack_tag_cmp left right == 0

/-- Embeds mpack_track_element_t (lines 468-471): the kind of the open
compound and the 64-bit count of elements or bytes still expected. -/
structure mpack_track_element_t where
  type : mpack_type_t
  left : Nat
deriving DecidableEq, Repr

/-- Embeds mpack_track_t (lines 473-477): the growable array of frames is
modelled as a list with the innermost open frame at the head; count and
capacity are the list's own bookkeeping and are not modelled separately. -/
structure mpack_track_t where
  elements : List mpack_track_element_t
deriving DecidableEq, Repr

/-- The byte-counted compound kinds: str, bin and ext frames count bytes,
array and map frames count elements (spec section 3). -/
def mpack_type_counts_bytes (t : mpack_type_t) : Bool :=
  t == .mpack_type_str || t == .mpack_type_bin || t == .mpack_type_ext

/-- Modelled from the spec: mpack_track_pop is declared at mpack-common.h
line 483 but its body is not under src. Spec section 4.4: pop(kind) closes
the current top frame; it fails with a usage error (the bug error kind) if
the stack is empty, if the top frame's kind does not match, or if the top
frame's remaining count is not exactly zero; otherwise it succeeds and
removes the top frame. Failure leaves the tracker unchanged. -/
def mpack_track_pop (track : mpack_track_t) (type : mpack_type_t) :
    mpack_error_t × mpack_track_t :=
  match track.elements with
  | [] => (.mpack_error_bug, track)
  | e :: rest =>
      if e.type ≠ type then (.mpack_error_bug, track)
      else if e.left ≠ 0 then (.mpack_error_bug, track)
      else (.mpack_ok, { elements := rest })

/-- Modelled from the spec: mpack_track_bytes is declared at
mpack-common.h line 485 but its body is not under src. Spec section 4.4:
bytes(count) fails with a usage error (the bug error kind) if there is no
open frame, if the top frame is not a byte-counted kind, or if count
exceeds the remaining count; on success it decrements remaining by count.
Failure leaves the tracker, in particular the top frame's remaining count,
unchanged. The read flag selects read-side or write-side discipline whose
logic is symmetric. -/
def mpack_track_bytes (track : mpack_track_t) (read : Bool) (count : Nat) :
    mpack_error_t × mpack_track_t :=
  match track.elements with
  | [] => (.mpack_error_bug, track)
  | e :: rest =>
      if ¬ mpack_type_counts_bytes e.type then (.mpack_error_bug, track)
      else if count > e.left then (.mpack_error_bug, track)
      else (.mpack_ok, { elements := { e with left := e.left - count } :: rest })

theorem lor_shiftLeft_add (a b k : Nat) (hb : b < 2 ^ k) :
    (a <<< k) ||| b = a * 2 ^ k + b := by
  rw [Nat.shiftLeft_eq, Nat.mul_comm]
  exact (Nat.mul_add_lt_is_or hb a).symm

theorem load_native_u16_eq (b0 b1 : Nat) (rest : List Nat) :
    mpack_load_native_u16 (b0 :: b1 :: rest) =
      (b0 % 256) * 2 ^ 8 + b1 % 256 := by
  show ((b0 % 256) <<< 8) ||| (b1 % 256) = _
  rw [lor_shiftLeft_add _ _ 8 (by omega)]

theorem load_native_u32_eq (b0 b1 b2 b3 : Nat) (rest : List Nat) :
    mpack_load_native_u32 (b0 :: b1 :: b2 :: b3 :: rest) =
      (b0 % 256) * 2 ^ 24 + (b1 % 256) * 2 ^ 16 +
      (b2 % 256) * 2 ^ 8 + b3 % 256 := by
  show ((b0 % 256) <<< 24) ||| ((b1 % 256) <<< 16) |||
      ((b2 % 256) <<< 8) ||| (b3 % 256) = _
  rw [Nat.lor_assoc, Nat.lor_assoc]
  have h1 : ((b2 % 256) <<< 8) ||| (b3 % 256) =
      (b2 % 256) * 2 ^ 8 + b3 % 256 :=
    lor_shiftLeft_add _ _ 8 (by omega)
  rw [h1]
  have h2 : ((b1 % 256) <<< 16) ||| ((b2 % 256) * 2 ^ 8 + b3 % 256) =
      (b1 % 256) * 2 ^ 16 + ((b2 % 256) * 2 ^ 8 + b3 % 256) :=
    lor_shiftLeft_add _ _ 16 (by omega)
  rw [h2]
  have h3 : ((b0 % 256) <<< 24) |||
      ((b1 % 256) * 2 ^ 16 + ((b2 % 256) * 2 ^ 8 + b3 % 256)) =
      (b0 % 256) * 2 ^ 24 +
      ((b1 % 256) * 2 ^ 16 + ((b2 % 256) * 2 ^ 8 + b3 % 256)) :=
    lor_shiftLeft_add _ _ 24 (by omega)
  rw [h3]
  omega

theorem load_native_u64_eq (b0 b1 b2 b3 b4 b5 b6 b7 : Nat)
    (rest : List Nat) :
    mpack_load_native_u64 (b0 :: b1 :: b2 :: b3 :: b4 :: b5 :: b6 :: b7 :: rest) =
      (b0 % 256) * 2 ^ 56 + (b1 % 256) * 2 ^ 48 +
      (b2 % 256) * 2 ^ 40 + (b3 % 256) * 2 ^ 32 +
      (b4 % 256) * 2 ^ 24 + (b5 % 256) * 2 ^ 16 +
      (b6 % 256) * 2 ^ 8 + b7 % 256 := by
  show ((b0 % 256) <<< 56) ||| ((b1 % 256) <<< 48) |||
      ((b2 % 256) <<< 40) ||| ((b3 % 256) <<< 32) |||
      ((b4 % 256) <<< 24) ||| ((b5 % 256) <<< 16) |||
      ((b6 % 256) <<< 8) ||| (b7 % 256) = _
  rw [Nat.lor_assoc, Nat.lor_assoc, Nat.lor_assoc, Nat.lor_assoc,
      Nat.lor_assoc, Nat.lor_assoc]
  have h1 : ((b6 % 256) <<< 8) ||| (b7 % 256) =
      (b6 % 256) * 2 ^ 8 + b7 % 256 :=
    lor_shiftLeft_add _ _ 8 (by omega)
  rw [h1]
  have h2 : ((b5 % 256) <<< 16) ||| ((b6 % 256) * 2 ^ 8 + b7 % 256) =
      (b5 % 256) * 2 ^ 16 + ((b6 % 256) * 2 ^ 8 + b7 % 256) :=
    lor_shiftLeft_add _ _ 16 (by omega)
  rw [h2]
  have h3 : ((b4 % 256) <<< 24) |||
      ((b5 % 256) * 2 ^ 16 + ((b6 % 256) * 2 ^ 8 + b7 % 256)) =
      (b4 % 256) * 2 ^ 24 +
      ((b5 % 256) * 2 ^ 16 + ((b6 % 256) * 2 ^ 8 + b7 % 256)) :=
    lor_shiftLeft_add _ _ 24 (by omega)
  rw [h3]
  have h4 : ((b3 % 256) <<< 32) |||
      ((b4 % 256) * 2 ^ 24 + ((b5 % 256) * 2 ^ 16 +
        ((b6 % 256) * 2 ^ 8 + b7 % 256))) =
      (b3 % 256) * 2 ^ 32 +
      ((b4 % 256) * 2 ^ 24 + ((b5 % 256) * 2 ^ 16 +
        ((b6 % 256) * 2 ^ 8 + b7 % 256))) :=
    lor_shiftLeft_add _ _ 32 (by omega)
  rw [h4]
  have h5 : ((b2 % 256) <<< 40) |||
      ((b3 % 256) * 2 ^ 32 + ((b4 % 256) * 2 ^ 24 +
        ((b5 % 256) * 2 ^ 16 + ((b6 % 256) * 2 ^ 8 + b7 % 256)))) =
      (b2 % 256) * 2 ^ 40 +
      ((b3 % 256) * 2 ^ 32 + ((b4 % 256) * 2 ^ 24 +
        ((b5 % 256) * 2 ^ 16 + ((b6 % 256) * 2 ^ 8 + b7 % 256)))) :=
    lor_shiftLeft_add _ _ 40 (by omega)
  rw [h5]
  have h6 : ((b1 % 256) <<< 48) |||
      ((b2 % 256) * 2 ^ 40 + ((b3 % 256) * 2 ^ 32 +
        ((b4 % 256) * 2 ^ 24 + ((b5 % 256) * 2 ^ 16 +
          ((b6 % 256) * 2 ^ 8 + b7 % 256))))) =
      (b1 % 256) * 2 ^ 48 +
      ((b2 % 256) * 2 ^ 40 + ((b3 % 256) * 2 ^ 32 +
        ((b4 % 256) * 2 ^ 24 + ((b5 % 256) * 2 ^ 16 +
          ((b6 % 256) * 2 ^ 8 + b7 % 256))))) :=
    lor_shiftLeft_add _ _ 48 (by omega)
  rw [h6]
  have h7 : ((b0 % 256) <<< 56) |||
      ((b1 % 256) * 2 ^ 48 + ((b2 % 256) * 2 ^ 40 +
        ((b3 % 256) * 2 ^ 32 + ((b4 % 256) * 2 ^ 24 +
          ((b5 % 256) * 2 ^ 16 + ((b6 % 256) * 2 ^ 8 + b7 % 256)))))) =
      (b0 % 256) * 2 ^ 56 +
      ((b1 % 256) * 2 ^ 48 + ((b2 % 256) * 2 ^ 40 +
        ((b3 % 256) * 2 ^ 32 + ((b4 % 256) * 2 ^ 24 +
          ((b5 % 256) * 2 ^ 16 + ((b6 % 256) * 2 ^ 8 + b7 % 256)))))) :=
    lor_shiftLeft_add _ _ 56 (by omega)
  rw [h7]
  omega

theorem store_native_u16_bytes (v : Nat) :
    mpack_store_native_u16 v = [v % 2 ^ 16 / 2 ^ 8, v % 2 ^ 8] := by
  simp only [mpack_store_native_u16,
    show (0xFF : Nat) = 2 ^ 8 - 1 from rfl,
    Nat.and_pow_two_sub_one_eq_mod, Nat.shiftRight_eq_div_pow]
  simp only [List.cons.injEq, and_true]
  omega

theorem store_native_u32_bytes (v : Nat) :
    mpack_store_native_u32 v =
      [v % 2 ^ 32 / 2 ^ 24, v % 2 ^ 24 / 2 ^ 16,
       v % 2 ^ 16 / 2 ^ 8, v % 2 ^ 8] := by
  simp only [mpack_store_native_u32,
    show (0xFF : Nat) = 2 ^ 8 - 1 from rfl,
    Nat.and_pow_two_sub_one_eq_mod, Nat.shiftRight_eq_div_pow]
  simp only [List.cons.injEq, and_true]
  omega

theorem store_native_u64_bytes (v : Nat) :
    mpack_store_native_u64 v =
      [v % 2 ^ 64 / 2 ^ 56, v % 2 ^ 56 / 2 ^ 48,
       v % 2 ^ 48 / 2 ^ 40, v % 2 ^ 40 / 2 ^ 32,
       v % 2 ^ 32 / 2 ^ 24, v % 2 ^ 24 / 2 ^ 16,
       v % 2 ^ 16 / 2 ^ 8, v % 2 ^ 8] := by
  simp only [mpack_store_native_u64,
    show (0xFF : Nat) = 2 ^ 8 - 1 from rfl,
    Nat.and_pow_two_sub_one_eq_mod, Nat.shiftRight_eq_div_pow]
  simp only [List.cons.injEq, and_true]
  omega

/-- C1: storing an unsigned 16, 32 or 64-bit value with the corresponding
mpack_store_native function and loading it back with the corresponding
mpack_load_native function yields the value exactly, and the same
round-trip holds bit-for-bit for 32-bit and 64-bit float bit patterns
stored via mpack_store_native_float and mpack_store_native_double,
including NaN bit patterns. -/
theorem mpack_load_store_native_roundtrip :
    (∀ v : Nat, v < 2 ^ 16 →
      mpack_load_native_u16 (mpack_store_native_u16 v) = v) ∧
    (∀ v : Nat, v < 2 ^ 32 →
      mpack_load_native_u32 (mpack_store_native_u32 v) = v) ∧
    (∀ v : Nat, v < 2 ^ 64 →
      mpack_load_native_u64 (mpack_store_native_u64 v) = v) ∧
    (∀ bits : Nat, bits < 2 ^ 32 →
      mpack_load_native_u32 (mpack_store_native_float bits) = bits) ∧
    (∀ bits : Nat, bits < 2 ^ 64 →
      mpack_load_native_u64 (mpack_store_native_double bits) = bits) := by
  have h32 : ∀ v : Nat, v < 2 ^ 32 →
      mpack_load_native_u32 (mpack_store_native_u32 v) = v := by
    intro v hv
    rw [store_native_u32_bytes, load_native_u32_eq]
    omega
  have h64 : ∀ v : Nat, v < 2 ^ 64 →
      mpack_load_native_u64 (mpack_store_native_u64 v) = v := by
    intro v hv
    rw [store_native_u64_bytes, load_native_u64_eq]
    omega
  refine ⟨?_, h32, h64, ?_, ?_⟩
  · intro v hv
    rw [store_native_u16_bytes, load_native_u16_eq]
    omega
  · intro bits h
    exact h32 bits h
  · intro bits h
    exact h64 bits h

theorem mpack_load_store_native_roundtrip_witness :
    mpack_load_native_u64
      (mpack_store_native_double 9221120237041090561) = 9221120237041090561 :=
  mpack_load_store_native_roundtrip.2.2.2.2 9221120237041090561 (by decide)

/-- C2: mpack_store_native writes the bytes of the value in big-endian
order, the byte at offset i of the w-byte output equalling the value
shifted right by 8 times (w minus 1 minus i) masked to a byte, and
mpack_load_native reads exactly the first w bytes of the window as the
big-endian combination of those bytes, independent of whatever follows. -/
theorem mpack_native_big_endian_layout :
    (∀ v : Nat, v < 2 ^ 8 → ∀ i : Nat, i < 1 →
      (mpack_store_native_u8 v).getD i 0 = (v >>> (8 * (1 - 1 - i))) &&& 0xFF) ∧
    (∀ v : Nat, v < 2 ^ 16 → ∀ i : Nat, i < 2 →
      (mpack_store_native_u16 v).getD i 0 = (v >>> (8 * (2 - 1 - i))) &&& 0xFF) ∧
    (∀ v : Nat, v < 2 ^ 32 → ∀ i : Nat, i < 4 →
      (mpack_store_native_u32 v).getD i 0 = (v >>> (8 * (4 - 1 - i))) &&& 0xFF) ∧
    (∀ v : Nat, v < 2 ^ 64 → ∀ i : Nat, i < 8 →
      (mpack_store_native_u64 v).getD i 0 = (v >>> (8 * (8 - 1 - i))) &&& 0xFF) ∧
    (∀ b0 : Nat, ∀ rest : List Nat,
      mpack_load_native_u8 (b0 :: rest) = b0 % 256) ∧
    (∀ b0 b1 : Nat, ∀ rest : List Nat,
      mpack_load_native_u16 (b0 :: b1 :: rest) =
        (b0 % 256) * 2 ^ 8 + b1 % 256) ∧
    (∀ b0 b1 b2 b3 : Nat, ∀ rest : List Nat,
      mpack_load_native_u32 (b0 :: b1 :: b2 :: b3 :: rest) =
        (b0 % 256) * 2 ^ 24 + (b1 % 256) * 2 ^ 16 +
        (b2 % 256) * 2 ^ 8 + b3 % 256) ∧
    (∀ b0 b1 b2 b3 b4 b5 b6 b7 : Nat, ∀ rest : List Nat,
      mpack_load_native_u64 (b0 :: b1 :: b2 :: b3 :: b4 :: b5 :: b6 :: b7 :: rest) =
        (b0 % 256) * 2 ^ 56 + (b1 % 256) * 2 ^ 48 +
        (b2 % 256) * 2 ^ 40 + (b3 % 256) * 2 ^ 32 +
        (b4 % 256) * 2 ^ 24 + (b5 % 256) * 2 ^ 16 +
        (b6 % 256) * 2 ^ 8 + b7 % 256) := by
  have hmask : ∀ x : Nat, x &&& 0xFF = x % 2 ^ 8 := fun x =>
    Nat.and_pow_two_sub_one_eq_mod x 8
  refine ⟨?_, ?_, ?_, ?_,
    fun b0 rest => rfl,
    fun b0 b1 rest => load_native_u16_eq b0 b1 rest,
    fun b0 b1 b2 b3 rest => load_native_u32_eq b0 b1 b2 b3 rest,
    fun b0 b1 b2 b3 b4 b5 b6 b7 rest =>
      load_native_u64_eq b0 b1 b2 b3 b4 b5 b6 b7 rest⟩
  · intro v hv i hi
    interval_cases i
    simp only [mpack_store_native_u8, List.getD, hmask,
      Nat.shiftRight_eq_div_pow]
    simp
  · intro v hv i hi
    rw [store_native_u16_bytes]
    interval_cases i <;>
      simp only [List.getD, hmask, Nat.shiftRight_eq_div_pow] <;>
      simp <;> omega
  · intro v hv i hi
    rw [store_native_u32_bytes]
    interval_cases i <;>
      simp only [List.getD, hmask, Nat.shiftRight_eq_div_pow] <;>
      simp <;> omega
  · intro v hv i hi
    rw [store_native_u64_bytes]
    interval_cases i <;>
      simp only [List.getD, hmask, Nat.shiftRight_eq_div_pow] <;>
      simp <;> omega

theorem mpack_native_big_endian_layout_witness :
    (mpack_store_native_u32 305419896).getD 1 0 =
      (305419896 >>> (8 * (4 - 1 - 1))) &&& 0xFF :=
  mpack_native_big_endian_layout.2.2.1 305419896 (by decide) 1 (by decide)

theorem mpack_int_cmp_tri (x y : Int) :
    mpack_int_cmp x y = -1 ∨ mpack_int_cmp x y = 0 ∨ mpack_int_cmp x y = 1 := by
  unfold mpack_int_cmp
  split
  · exact Or.inl rfl
  · split
    · exact Or.inr (Or.inl rfl)
    · exact Or.inr (Or.inr rfl)

theorem mpack_nat_cmp_tri (x y : Nat) :
    mpack_nat_cmp x y = -1 ∨ mpack_nat_cmp x y = 0 ∨ mpack_nat_cmp x y = 1 := by
  unfold mpack_nat_cmp
  split
  · exact Or.inl rfl
  · split
    · exact Or.inr (Or.inl rfl)
    · exact Or.inr (Or.inr rfl)

theorem mpack_int_cmp_eq_zero_iff (x y : Int) :
    mpack_int_cmp x y = 0 ↔ x = y := by
  unfold mpack_int_cmp
  split_ifs with h1 h2
  · simp
    omega
  · simp [h2]
  · simp
    omega

theorem mpack_nat_cmp_eq_zero_iff (x y : Nat) :
    mpack_nat_cmp x y = 0 ↔ x = y := by
  unfold mpack_nat_cmp
  split_ifs with h1 h2
  · simp
    omega
  · simp [h2]
  · simp
    omega

theorem mpack_tag_cmp_same_tri (l r : mpack_tag_t) :
    mpack_tag_cmp_same l r = -1 ∨ mpack_tag_cmp_same l r = 0 ∨
      mpack_tag_cmp_same l r = 1 := by
  unfold mpack_tag_cmp_same
  cases h : l.type
  case mpack_type_ext =>
    dsimp only
    split
    · exact mpack_nat_cmp_tri _ _
    · exact mpack_int_cmp_tri _ _
  all_goals first
    | exact Or.inr (Or.inl rfl)
    | exact mpack_int_cmp_tri _ _
    | exact mpack_nat_cmp_tri _ _

theorem mpack_tag_cmp_same_self (l : mpack_tag_t) :
    mpack_tag_cmp_same l l = 0 := by
  unfold mpack_tag_cmp_same
  cases h : l.type <;>
    simp [mpack_int_cmp, mpack_nat_cmp]

theorem mpack_tag_cmp_self (t : mpack_tag_t) : mpack_tag_cmp t t = 0 := by
  unfold mpack_tag_cmp
  rw [if_pos rfl]
  exact mpack_tag_cmp_same_self _

theorem mpack_tag_equal_iff_cmp_zero (a b : mpack_tag_t) :
    mpack_tag_equal a b = true ↔ mpack_tag_cmp a b = 0 := by
  simp [mpack_tag_equal]

theorem mpack_tag_equal_self (t : mpack_tag_t) :
    mpack_tag_equal t t = true :=
  (mpack_tag_equal_iff_cmp_zero t t).mpr (mpack_tag_cmp_self t)

/-- C3: every tag constructor returns a tag in which every field other
than the kind, the kind's own payload field and (for ext only) the
exttype is zero; in particular exttype is 0 for every non-ext constructor
and mpack_tag_nil leaves the entire payload union zero. -/
theorem mpack_tag_constructors_zero_state :
    (mpack_tag_nil.exttype = 0 ∧ mpack_tag_nil.v = mpack_tag_value_zero) ∧
    (∀ x : Bool, (mpack_tag_bool x).exttype = 0 ∧
      (mpack_tag_bool x).v.f = 0 ∧ (mpack_tag_bool x).v.d = 0 ∧
      (mpack_tag_bool x).v.i = 0 ∧ (mpack_tag_bool x).v.u = 0 ∧
      (mpack_tag_bool x).v.l = 0 ∧ (mpack_tag_bool x).v.n = 0) ∧
    (∀ x : Int, (mpack_tag_int x).exttype = 0 ∧
      (mpack_tag_int x).v.b = false ∧ (mpack_tag_int x).v.f = 0 ∧
      (mpack_tag_int x).v.d = 0 ∧ (mpack_tag_int x).v.u = 0 ∧
      (mpack_tag_int x).v.l = 0 ∧ (mpack_tag_int x).v.n = 0) ∧
    (∀ x : Nat, (mpack_tag_uint x).exttype = 0 ∧
      (mpack_tag_uint x).v.b = false ∧ (mpack_tag_uint x).v.f = 0 ∧
      (mpack_tag_uint x).v.d = 0 ∧ (mpack_tag_uint x).v.i = 0 ∧
      (mpack_tag_uint x).v.l = 0 ∧ (mpack_tag_uint x).v.n = 0) ∧
    (∀ x : Nat, (mpack_tag_float x).exttype = 0 ∧
      (mpack_tag_float x).v.b = false ∧ (mpack_tag_float x).v.d = 0 ∧
      (mpack_tag_float x).v.i = 0 ∧ (mpack_tag_float x).v.u = 0 ∧
      (mpack_tag_float x).v.l = 0 ∧ (mpack_tag_float x).v.n = 0) ∧
    (∀ x : Nat, (mpack_tag_double x).exttype = 0 ∧
      (mpack_tag_double x).v.b = false ∧ (mpack_tag_double x).v.f = 0 ∧
      (mpack_tag_double x).v.i = 0 ∧ (mpack_tag_double x).v.u = 0 ∧
      (mpack_tag_double x).v.l = 0 ∧ (mpack_tag_double x).v.n = 0) ∧
    (∀ x : Int, (mpack_tag_str x).exttype = 0 ∧
      (mpack_tag_str x).v.b = false ∧ (mpack_tag_str x).v.f = 0 ∧
      (mpack_tag_str x).v.d = 0 ∧ (mpack_tag_str x).v.i = 0 ∧
      (mpack_tag_str x).v.u = 0 ∧ (mpack_tag_str x).v.n = 0) ∧
    (∀ x : Int, (mpack_tag_bin x).exttype = 0 ∧
      (mpack_tag_bin x).v.b = false ∧ (mpack_tag_bin x).v.f = 0 ∧
      (mpack_tag_bin x).v.d = 0 ∧ (mpack_tag_bin x).v.i = 0 ∧
      (mpack_tag_bin x).v.u = 0 ∧ (mpack_tag_bin x).v.n = 0) ∧
    (∀ x : Int, (mpack_tag_array x).exttype = 0 ∧
      (mpack_tag_array x).v.b = false ∧ (mpack_tag_array x).v.f = 0 ∧
      (mpack_tag_array x).v.d = 0 ∧ (mpack_tag_array x).v.i = 0 ∧
      (mpack_tag_array x).v.u = 0 ∧ (mpack_tag_array x).v.l = 0) ∧
    (∀ x : Int, (mpack_tag_map x).exttype = 0 ∧
      (mpack_tag_map x).v.b = false ∧ (mpack_tag_map x).v.f = 0 ∧
      (mpack_tag_map x).v.d = 0 ∧ (mpack_tag_map x).v.i = 0 ∧
      (mpack_tag_map x).v.u = 0 ∧ (mpack_tag_map x).v.l = 0) ∧
    (∀ e x : Int, (mpack_tag_ext e x).v.b = false ∧
      (mpack_tag_ext e x).v.f = 0 ∧ (mpack_tag_ext e x).v.d = 0 ∧
      (mpack_tag_ext e x).v.i = 0 ∧ (mpack_tag_ext e x).v.u = 0 ∧
      (mpack_tag_ext e x).v.n = 0) :=
  ⟨⟨rfl, rfl⟩,
   fun _ => ⟨rfl, rfl, rfl, rfl, rfl, rfl, rfl⟩,
   fun _ => ⟨rfl, rfl, rfl, rfl, rfl, rfl, rfl⟩,
   fun _ => ⟨rfl, rfl, rfl, rfl, rfl, rfl, rfl⟩,
   fun _ => ⟨rfl, rfl, rfl, rfl, rfl, rfl, rfl⟩,
   fun _ => ⟨rfl, rfl, rfl, rfl, rfl, rfl, rfl⟩,
   fun _ => ⟨rfl, rfl, rfl, rfl, rfl, rfl, rfl⟩,
   fun _ => ⟨rfl, rfl, rfl, rfl, rfl, rfl, rfl⟩,
   fun _ => ⟨rfl, rfl, rfl, rfl, rfl, rfl, rfl⟩,
   fun _ => ⟨rfl, rfl, rfl, rfl, rfl, rfl, rfl⟩,
   fun _ _ => ⟨rfl, rfl, rfl, rfl, rfl, rfl⟩⟩

/-- C4: mpack_tag_cmp always returns exactly one of -1, 0 or 1, and
mpack_tag_equal holds exactly when mpack_tag_cmp returns 0. -/
theorem mpack_tag_cmp_sign_and_equal_consistency (a b : mpack_tag_t) :
    (mpack_tag_cmp a b = -1 ∨ mpack_tag_cmp a b = 0 ∨ mpack_tag_cmp a b = 1) ∧
    (mpack_tag_equal a b = true ↔ mpack_tag_cmp a b = 0) := by
  constructor
  · unfold mpack_tag_cmp
    split
    · exact mpack_tag_cmp_same_tri _ _
    · exact mpack_int_cmp_tri _ _
  · simp [mpack_tag_equal]

/-- C5: every tag produced by a tag constructor, with any argument
values including NaN bit patterns and any exttype, compares equal to
itself: mpack_tag_cmp gives 0 and mpack_tag_equal gives true. -/
theorem mpack_tag_cmp_reflexive :
    (mpack_tag_cmp mpack_tag_nil mpack_tag_nil = 0 ∧
      mpack_tag_equal mpack_tag_nil mpack_tag_nil = true) ∧
    (∀ x : Bool, mpack_tag_cmp (mpack_tag_bool x) (mpack_tag_bool x) = 0 ∧
      mpack_tag_equal (mpack_tag_bool x) (mpack_tag_bool x) = true) ∧
    (∀ x : Int, mpack_tag_cmp (mpack_tag_int x) (mpack_tag_int x) = 0 ∧
      mpack_tag_equal (mpack_tag_int x) (mpack_tag_int x) = true) ∧
    (∀ x : Nat, mpack_tag_cmp (mpack_tag_uint x) (mpack_tag_uint x) = 0 ∧
      mpack_tag_equal (mpack_tag_uint x) (mpack_tag_uint x) = true) ∧
    (∀ x : Nat, mpack_tag_cmp (mpack_tag_float x) (mpack_tag_float x) = 0 ∧
      mpack_tag_equal (mpack_tag_float x) (mpack_tag_float x) = true) ∧
    (∀ x : Nat, mpack_tag_cmp (mpack_tag_double x) (mpack_tag_double x) = 0 ∧
      mpack_tag_equal (mpack_tag_double x) (mpack_tag_double x) = true) ∧
    (∀ x : Int, mpack_tag_cmp (mpack_tag_str x) (mpack_tag_str x) = 0 ∧
      mpack_tag_equal (mpack_tag_str x) (mpack_tag_str x) = true) ∧
    (∀ x : Int, mpack_tag_cmp (mpack_tag_bin x) (mpack_tag_bin x) = 0 ∧
      mpack_tag_equal (mpack_tag_bin x) (mpack_tag_bin x) = true) ∧
    (∀ x : Int, mpack_tag_cmp (mpack_tag_array x) (mpack_tag_array x) = 0 ∧
      mpack_tag_equal (mpack_tag_array x) (mpack_tag_array x) = true) ∧
    (∀ x : Int, mpack_tag_cmp (mpack_tag_map x) (mpack_tag_map x) = 0 ∧
      mpack_tag_equal (mpack_tag_map x) (mpack_tag_map x) = true) ∧
    (∀ e x : Int, mpack_tag_cmp (mpack_tag_ext e x) (mpack_tag_ext e x) = 0 ∧
      mpack_tag_equal (mpack_tag_ext e x) (mpack_tag_ext e x) = true) :=
  ⟨⟨mpack_tag_cmp_self _, mpack_tag_equal_self _⟩,
   fun _ => ⟨mpack_tag_cmp_self _, mpack_tag_equal_self _⟩,
   fun _ => ⟨mpack_tag_cmp_self _, mpack_tag_equal_self _⟩,
   fun _ => ⟨mpack_tag_cmp_self _, mpack_tag_equal_self _⟩,
   fun _ => ⟨mpack_tag_cmp_self _, mpack_tag_equal_self _⟩,
   fun _ => ⟨mpack_tag_cmp_self _, mpack_tag_equal_self _⟩,
   fun _ => ⟨mpack_tag_cmp_self _, mpack_tag_equal_self _⟩,
   fun _ => ⟨mpack_tag_cmp_self _, mpack_tag_equal_self _⟩,
   fun _ => ⟨mpack_tag_cmp_self _, mpack_tag_equal_self _⟩,
   fun _ => ⟨mpack_tag_cmp_self _, mpack_tag_equal_self _⟩,
   fun _ _ => ⟨mpack_tag_cmp_self _, mpack_tag_equal_self _⟩⟩

/-- C6: a non-negative int tag equals the uint tag of the same value; a
negative int tag equals no uint tag. -/
theorem mpack_tag_int_uint_compat (n : Int) (m : Nat) :
    (0 ≤ n →
      mpack_tag_equal (mpack_tag_int n) (mpack_tag_uint n.toNat) = true) ∧
    (n < 0 →
      mpack_tag_equal (mpack_tag_int n) (mpack_tag_uint m) = false) := by
  constructor
  · intro h
    simp [mpack_tag_equal, mpack_tag_cmp, mpack_tag_normalize,
      mpack_tag_int, mpack_tag_uint, mpack_tag_cmp_same, mpack_nat_cmp,
      mpack_tag_value_zero, h]
  · intro h
    have h' : ¬ (0 ≤ n) := by omega
    simp [mpack_tag_equal, mpack_tag_cmp, mpack_tag_normalize,
      mpack_tag_int, mpack_tag_uint, mpack_tag_cmp_same, mpack_int_cmp,
      mpack_tag_value_zero, mpack_type_value, h']

theorem mpack_tag_int_uint_compat_witness :
    mpack_tag_equal (mpack_tag_int 5) (mpack_tag_uint (Int.toNat 5)) = true ∧
    mpack_tag_equal (mpack_tag_int (-3)) (mpack_tag_uint 7) = false :=
  ⟨(mpack_tag_int_uint_compat 5 5).1 (by decide),
   (mpack_tag_int_uint_compat (-3) 7).2 (by decide)⟩

/-- C7: two float tags are equal exactly when the raw bit patterns of
their float payloads are identical, and likewise for double tags; NaNs
with the same bit pattern compare equal, NaNs with different bit patterns
compare unequal. -/
theorem mpack_tag_float_bitpattern_equal (a b : mpack_tag_t) :
    (a.type = .mpack_type_float → b.type = .mpack_type_float →
      (mpack_tag_equal a b = true ↔ a.v.f = b.v.f)) ∧
    (a.type = .mpack_type_double → b.type = .mpack_type_double →
      (mpack_tag_equal a b = true ↔ a.v.d = b.v.d)) := by
  constructor
  · intro ha hb
    have hna : mpack_tag_normalize a = a := by
      unfold mpack_tag_normalize
      rw [if_neg (by simp [ha])]
    have hnb : mpack_tag_normalize b = b := by
      unfold mpack_tag_normalize
      rw [if_neg (by simp [hb])]
    have hcmp : mpack_tag_cmp a b = mpack_nat_cmp a.v.f b.v.f := by
      unfold mpack_tag_cmp
      rw [hna, hnb, if_pos (by rw [ha, hb])]
      unfold mpack_tag_cmp_same
      rw [ha]
    rw [mpack_tag_equal_iff_cmp_zero, hcmp]
    exact mpack_nat_cmp_eq_zero_iff _ _
  · intro ha hb
    have hna : mpack_tag_normalize a = a := by
      unfold mpack_tag_normalize
      rw [if_neg (by simp [ha])]
    have hnb : mpack_tag_normalize b = b := by
      unfold mpack_tag_normalize
      rw [if_neg (by simp [hb])]
    have hcmp : mpack_tag_cmp a b = mpack_nat_cmp a.v.d b.v.d := by
      unfold mpack_tag_cmp
      rw [hna, hnb, if_pos (by rw [ha, hb])]
      unfold mpack_tag_cmp_same
      rw [ha]
    rw [mpack_tag_equal_iff_cmp_zero, hcmp]
    exact mpack_nat_cmp_eq_zero_iff _ _

theorem mpack_tag_float_bitpattern_equal_witness :
    mpack_tag_equal (mpack_tag_float 2143289344)
      (mpack_tag_float 2143289344) = true :=
  ((mpack_tag_float_bitpattern_equal (mpack_tag_float 2143289344)
      (mpack_tag_float 2143289344)).1 rfl rfl).mpr rfl

/-- C8: mpack_track_pop fails with the bug error exactly when the frame
stack is empty, the top frame's kind does not match, or the top frame's
remaining count is nonzero; otherwise it returns ok and removes the top
frame. -/
theorem mpack_track_pop_spec (t : mpack_track_t) (ty : mpack_type_t) :
    ((mpack_track_pop t ty).1 = .mpack_error_bug ↔
      t.elements = [] ∨
        ∃ e rest, t.elements = e :: rest ∧ (e.type ≠ ty ∨ e.left ≠ 0)) ∧
    (∀ e rest, t.elements = e :: rest → e.type = ty → e.left = 0 →
      mpack_track_pop t ty = (.mpack_ok, { elements := rest })) := by
  obtain ⟨els⟩ := t
  cases els with
  | nil =>
      constructor
      · simp [mpack_track_pop]
      · intro e rest h
        simp at h
  | cons e rest =>
      constructor
      · by_cases h1 : e.type = ty
        · by_cases h2 : e.left = 0
          · simp [mpack_track_pop, h1, h2]
          · simp [mpack_track_pop, h1, h2]
        · simp [mpack_track_pop, h1]
      · intro e' rest' h hh1 hh2
        rw [List.cons.injEq] at h
        obtain ⟨he, hrest⟩ := h
        subst he
        subst hrest
        simp [mpack_track_pop, hh1, hh2]

theorem mpack_track_pop_spec_witness :
    mpack_track_pop
        { elements := [{ type := .mpack_type_array, left := 0 }] }
        .mpack_type_array =
      (.mpack_ok, { elements := [] }) :=
  (mpack_track_pop_spec
      { elements := [{ type := .mpack_type_array, left := 0 }] }
      .mpack_type_array).2
    { type := .mpack_type_array, left := 0 } [] rfl rfl rfl

/-- C9: mpack_track_bytes fails with the bug error, leaving the tracker
and in particular the top frame's remaining count unchanged, when there is
no open frame, when the top frame is not a byte-counted kind, or when
count exceeds the remaining count; with count at most the remaining count
it succeeds and decrements remaining by exactly count. -/
theorem mpack_track_bytes_spec (t : mpack_track_t) (read : Bool)
    (count : Nat) :
    (t.elements = [] →
      mpack_track_bytes t read count = (.mpack_error_bug, t)) ∧
    (∀ e rest, t.elements = e :: rest →
      mpack_type_counts_bytes e.type = false →
      mpack_track_bytes t read count = (.mpack_error_bug, t)) ∧
    (∀ e rest, t.elements = e :: rest →
      mpack_type_counts_bytes e.type = true → count > e.left →
      mpack_track_bytes t read count = (.mpack_error_bug, t)) ∧
    (∀ e rest, t.elements = e :: rest →
      mpack_type_counts_bytes e.type = true → count ≤ e.left →
      mpack_track_bytes t read count =
        (.mpack_ok, { elements := { e with left := e.left - count } :: rest })) := by
  obtain ⟨els⟩ := t
  cases els with
  | nil =>
      refine ⟨fun _ => rfl, ?_, ?_, ?_⟩ <;>
        intro e rest h <;> simp at h
  | cons e rest =>
      refine ⟨fun h => by simp at h, ?_, ?_, ?_⟩
      · intro e' rest' h hkind
        rw [List.cons.injEq] at h
        obtain ⟨he, hrest⟩ := h
        subst he
        subst hrest
        simp [mpack_track_bytes, hkind]
      · intro e' rest' h hkind hcount
        rw [List.cons.injEq] at h
        obtain ⟨he, hrest⟩ := h
        subst he
        subst hrest
        have hgt : ¬ count ≤ e.left := by omega
        simp [mpack_track_bytes, hkind, hgt]
      · intro e' rest' h hkind hcount
        rw [List.cons.injEq] at h
        obtain ⟨he, hrest⟩ := h
        subst he
        subst hrest
        have hle : ¬ e.left < count := by omega
        simp [mpack_track_bytes, hkind, hle]

theorem mpack_track_bytes_spec_witness :
    mpack_track_bytes
        { elements := [{ type := .mpack_type_bin, left := 10 }] } true 11 =
      (.mpack_error_bug,
        { elements := [{ type := .mpack_type_bin, left := 10 }] }) :=
  (mpack_track_bytes_spec
      { elements := [{ type := .mpack_type_bin, left := 10 }] } true 11).2.2.1
    { type := .mpack_type_bin, left := 10 } [] rfl rfl (by decide)

/-- C10: the count and length tag constructors take a signed 32-bit
argument and store it in an unsigned 32-bit payload field, so a negative
argument k yields the payload k + 2^32. -/
theorem mpack_tag_count_wraps_mod_2_32 (k : Int)
    (h1 : -(2 ^ 31) ≤ k) (h2 : k < 0) :
    (mpack_tag_array k).v.n = (k + 2 ^ 32).toNat ∧
    (mpack_tag_map k).v.n = (k + 2 ^ 32).toNat ∧
    (mpack_tag_str k).v.l = (k + 2 ^ 32).toNat ∧
    (mpack_tag_bin k).v.l = (k + 2 ^ 32).toNat ∧
    ∀ e : Int, (mpack_tag_ext e k).v.l = (k + 2 ^ 32).toNat := by
  have h : (k % 2 ^ 32).toNat = (k + 2 ^ 32).toNat := by omega
  exact ⟨h, h, h, h, fun _ => h⟩

theorem mpack_tag_count_wraps_mod_2_32_witness :
    (mpack_tag_array (-1)).v.n = ((-1 : Int) + 2 ^ 32).toNat :=
  (mpack_tag_count_wraps_mod_2_32 (-1) (by decide) (by decide)).1
